import Mathlib

/-!
Shallow embedding of `src/server.js` (teacher-bot): the language detector
`detectLangFromText` and the `POST /ask` request handler, together with
proofs about the claims of the specification.

Strings are modelled as Lean `String` / `List Char`.  JavaScript regular
expressions are modelled as follows:

* a case-insensitive character class such as `/[ãõáéíóúâêôàç]/i` is the
  membership test against the class expanded with the upper-case variants
  of its letters (that is exactly what the `i` flag does for these
  Latin-1 letters);
* a keyword alternation `/\b(w1|w2|...)\b/i` applied to the lower-cased
  text is "some wk occurs as a contiguous substring with a word boundary
  on both sides", where a word character is `[A-Za-z0-9_]` as in
  JavaScript regexes;
* `String.prototype.trim` drops leading and trailing whitespace;
* `String.prototype.toLowerCase` is a character-wise table (ASCII plus
  the Latin-1 letters the detector inspects, identity elsewhere).
-/

/-- Whitespace characters removed by the JavaScript `trim` (the common
ones: space, tab, line feed, carriage return, vertical tab, form feed,
no-break space, BOM). -/
def isJsSpace (c : Char) : Bool :=
  c = ' ' || c = '\t' || c = '\n' || c = '\r' ||
  c = Char.ofNat 11 || c = Char.ofNat 12 || c = Char.ofNat 0xA0 ||
  c = Char.ofNat 0xFEFF

/-- JavaScript `text.trim()` on the character list. -/
def trimChars (l : List Char) : List Char :=
  ((l.dropWhile isJsSpace).reverse.dropWhile isJsSpace).reverse

/-- Character-wise lower-casing table for `toLowerCase`: ASCII letters and
the accented Latin-1 capital letters relevant to the detector. -/
def lowerTable : List (Char × Char) :=
  [('A','a'),('B','b'),('C','c'),('D','d'),('E','e'),('F','f'),('G','g'),
   ('H','h'),('I','i'),('J','j'),('K','k'),('L','l'),('M','m'),('N','n'),
   ('O','o'),('P','p'),('Q','q'),('R','r'),('S','s'),('T','t'),('U','u'),
   ('V','v'),('W','w'),('X','x'),('Y','y'),('Z','z'),
   ('À','à'),('Á','á'),('Â','â'),('Ã','ã'),('Ç','ç'),
   ('È','è'),('É','é'),('Ê','ê'),('Ë','ë'),
   ('Ì','ì'),('Í','í'),('Î','î'),('Ï','ï'),
   ('Ñ','ñ'),('Ò','ò'),('Ó','ó'),('Ô','ô'),('Õ','õ'),
   ('Ù','ù'),('Ú','ú'),('Û','û'),('Ü','ü')]

/-- JavaScript `toLowerCase`, character-wise over `lowerTable`. -/
def jsToLower (c : Char) : Char :=
  match lowerTable.find? (fun p => p.1 == c) with
  | some p => p.2
  | none => c

/-- A JavaScript regex word character: `[A-Za-z0-9_]`. -/
def isWordChar (c : Char) : Bool :=
  (('a' ≤ c) && (c ≤ 'z')) || (('A' ≤ c) && (c ≤ 'Z')) ||
  (('0' ≤ c) && (c ≤ '9')) || c = '_'

/-- Whether the character at index `i` (if any) is a word character. -/
def wordAt (l : List Char) (i : Nat) : Bool :=
  match l.get? i with
  | some c => isWordChar c
  | none => false

/-- Whether the character just before position `i` is a word character
(positions index the gaps between characters). -/
def wordBefore (l : List Char) : Nat → Bool
  | 0 => false
  | j + 1 => wordAt l j

/-- The regex `\b` assertion at position `i`: exactly one of the two
surrounding characters is a word character. -/
def wordBoundary (l : List Char) (i : Nat) : Bool :=
  wordBefore l i != wordAt l i

/-- `w` occurs as a contiguous substring of `l` starting at index `i`. -/
def matchesAt (l w : List Char) (i : Nat) : Bool :=
  decide ((l.drop i).take w.length = w)

/-- `\b w \b` matches `l` at position `i`. -/
def wordMatchAt (l w : List Char) (i : Nat) : Bool :=
  matchesAt l w i && wordBoundary l i && wordBoundary l (i + w.length)

/-- `/\b w \b/` matches somewhere in `l`. -/
def wordMatch (l w : List Char) : Bool :=
  (List.range (l.length + 1)).any (fun i => wordMatchAt l w i)

/-- The alternation `/\b(w1|w2|...)\b/` matches somewhere in `l`. -/
def anyWord (l : List Char) (ws : List (List Char)) : Bool :=
  ws.any (fun w => wordMatch l w)

/-- Some character of `l` lies in the character class `cls`. -/
def hasAnyChar (cls : List Char) (l : List Char) : Bool :=
  l.any (fun c => decide (c ∈ cls))

/-- Rule 1 character class `[ãõáéíóúâêôàç]` with `/i`: the class expanded
with upper-case variants. -/
def ptClass : List Char :=
  ['ã','õ','á','é','í','ó','ú','â','ê','ô','à','ç',
   'Ã','Õ','Á','É','Í','Ó','Ú','Â','Ê','Ô','À','Ç']

/-- Rule 2 character class `[ñáéíóú¡¿]` with `/i`. -/
def esClass : List Char :=
  ['ñ','á','é','í','ó','ú','¡','¿','Ñ','Á','É','Í','Ó','Ú']

/-- Rule 3 character class `[àèéìòóùçîïë]` with `/i`. -/
def itClass : List Char :=
  ['à','è','é','ì','ò','ó','ù','ç','î','ï','ë',
   'À','È','É','Ì','Ò','Ó','Ù','Ç','Î','Ï','Ë']

/-- Rule 4 character class `[àâçéèêîïôûù]` with `/i`. -/
def frClass : List Char :=
  ['à','â','ç','é','è','ê','î','ï','ô','û','ù',
   'À','Â','Ç','É','È','Ê','Î','Ï','Ô','Û','Ù']

/-- Rule 1 keywords `(artigos|quando|como|porque|por que)`. -/
def ptWords : List (List Char) :=
  [String.data "artigos", String.data "quando", String.data "como",
   String.data "porque", String.data "por que"]

/-- Rule 2 keywords `(artículos|cuándo|cómo|por qué)`. -/
def esWords : List (List Char) :=
  [String.data "artículos", String.data "cuándo", String.data "cómo",
   String.data "por qué"]

/-- Rule 3 keywords `(perché|quando|come|articoli)`. -/
def itWords : List (List Char) :=
  [String.data "perché", String.data "quando", String.data "come",
   String.data "articoli"]

/-- Rule 4 keywords `(pourquoi|quand|comment|articles)`. -/
def frWords : List (List Char) :=
  [String.data "pourquoi", String.data "quand", String.data "comment",
   String.data "articles"]

/-- The trimmed character list of the input (`const t = text.trim()`). -/
def trimOf (text : String) : List Char := trimChars text.data

/-- The lower-cased trimmed character list (`const low = t.toLowerCase()`). -/
def lowOf (text : String) : List Char := (trimOf text).map jsToLower

/-- Embedding of `detectLangFromText` (src/server.js lines 30-40): five
ordered rules, each a character-class test on the trimmed text or a
whole-word keyword test on its lower-cased copy; first match wins,
falling back to English. -/
def detectLangFromText (text : String) : String :=
  let t := trimOf text
  let low := lowOf text
  if hasAnyChar ptClass t || anyWord low ptWords then "Portuguese"
  else if hasAnyChar esClass t || anyWord low esWords then "Spanish"
  else if hasAnyChar itClass t || anyWord low itWords then "Italian"
  else if hasAnyChar frClass t || anyWord low frWords then "French"
  else "English"

/-!
Embedding of the `POST /ask` route (src/server.js lines 64-94).

The upstream OpenAI client is modelled as an explicit function from chat
requests to results, the handler returns the HTTP response together with
the list of upstream requests it issued and the list of error details it
logged via `console.error`.  JavaScript values that may be either a string
or a structured payload (the `err?.response?.data` field) are modelled by
`JsValue`, where a structured payload carries its JSON serialization.
-/

/-- Startup configuration: `ALLOWED_POINT` (topic) and `MODEL`. -/
structure Config where
  topic : String
  model : String
deriving DecidableEq

/-- A JavaScript value that is either a string or a structured (object)
payload, the latter identified by its JSON serialization. -/
inductive JsValue where
  | str (s : String)
  | obj (json : String)
deriving DecidableEq

/-- The caught exception `err`: its optional `response.data` payload, its
optional `message`, and its `String(err)` rendering. -/
structure JsError where
  responseData : Option JsValue
  message : Option String
  stringRepr : String
deriving DecidableEq

/-- One entry of the `messages` array sent upstream. -/
structure ChatMessage where
  role : String
  content : String
deriving DecidableEq

/-- The argument of `openai.chat.completions.create` (temperature 0.2 is
kept as tenths to stay in exact arithmetic). -/
structure ChatRequest where
  model : String
  messages : List ChatMessage
  maxTokens : Nat
  temperatureTenths : Nat
deriving DecidableEq

/-- The `message` field of a returned choice, with optional `content`. -/
structure ChoiceMessage where
  content : Option String
deriving DecidableEq

/-- One element of the returned `choices` array, with optional `message`. -/
structure ChatChoice where
  message : Option ChoiceMessage
deriving DecidableEq

/-- The upstream response: an optional `choices` array. -/
structure ChatResponse where
  choices : Option (List ChatChoice)
deriving DecidableEq

/-- Result of the upstream call: a response, or a thrown exception. -/
inductive UpstreamResult where
  | success (resp : ChatResponse)
  | failure (err : JsError)

/-- The JSON body of the outward HTTP response. -/
inductive ResponseBody where
  | answerBody (answer : String)
  | errorBody (error : String)
deriving DecidableEq

/-- The outward HTTP response: status code and JSON body. -/
structure HttpResponse where
  status : Nat
  body : ResponseBody
deriving DecidableEq

/-- What one invocation of the handler produced: the HTTP response, the
upstream requests issued, and the error details logged. -/
structure AskResult where
  response : HttpResponse
  upstreamCalls : List ChatRequest
  errorLog : List JsValue
deriving DecidableEq

/-- JavaScript `s.trim()` on strings. -/
def jsTrim (s : String) : String := String.mk (trimChars s.data)

/-- The `SYSTEM_PROMPT` template literal (lines 43-61), with the topic
interpolated for `ALLOWED_POINT`. -/
def SYSTEM_PROMPT (topic : String) : String :=
  "\nYou are a multilingual English teacher.\n\nCurrent grammar focus: "
  ++ topic ++
  ".\n\nRules:\n1) Detect the student\x27s language from their message and ALWAYS reply in that same language\n   (Portuguese, Spanish, Italian, French, or English). This includes refusals.\n2) If the student\x27s question is NOT about "
  ++ topic ++
  ":\n   - Politely explain (in the student\x27s language) that this lesson focuses only on "
  ++ topic ++
  ".\n   - Encourage staying on topic.\n   - Give 2 short example questions they could ask about "
  ++ topic ++
  " (in the same language).\n3) If the student\x27s question IS about "
  ++ topic ++
  ":\n   - Explain the rule clearly in the student\x27s language (max 3 short lines).\n   - Give 2 short English examples.\n   - Provide 3 short fill-in-the-gap practice items.\n4) Keep answers short, friendly, and A2–B1 clarity.\n5) Never switch languages unless the student switches first. Always mirror the student\x27s language.\n"

/-- The `LANG_HINT` template literal (line 71). -/
def langHint (detected : String) : String :=
  "Student language detected: " ++ detected ++ ". You MUST reply ONLY in "
  ++ detected ++
  ", including refusals and guidance. Never answer in any other language."

/-- The chat-completion request built at lines 73-82: the language hint,
the system prompt and the user text, with `max_tokens: 700` and
`temperature: 0.2`. -/
def buildChatRequest (cfg : Config) (userText : String) : ChatRequest :=
  { model := cfg.model,
    messages :=
      [ { role := "system", content := langHint (detectLangFromText userText) },
        { role := "system", content := SYSTEM_PROMPT cfg.topic },
        { role := "user", content := userText } ],
    maxTokens := 700,
    temperatureTenths := 2 }

/-- The optional-chaining walk `chatResponse.choices?.[0]?.message?.content`. -/
def contentOf (resp : ChatResponse) : Option String :=
  ((resp.choices.bind List.head?).bind ChatChoice.message).bind ChoiceMessage.content

/-- Line 84: `chatResponse.choices?.[0]?.message?.content?.trim()`. -/
def extractAnswer (resp : ChatResponse) : Option String :=
  (contentOf resp).map jsTrim

/-- JavaScript falsiness of a `JsValue`: only the empty string is falsy
(objects are always truthy). -/
def jsFalsyValue : JsValue → Bool
  | JsValue.str s => s = ""
  | JsValue.obj _ => false

/-- The tail `err?.message || String(err)` of the detail expression at
line 90 (an empty `message` is falsy and falls through). -/
def errDetailFallback (e : JsError) : JsValue :=
  match e.message with
  | some m => if m = "" then JsValue.str e.stringRepr else JsValue.str m
  | none => JsValue.str e.stringRepr

/-- Line 90: `const detail = err?.response?.data || err?.message || String(err)`. -/
def errDetail (e : JsError) : JsValue :=
  match e.responseData with
  | some d => if jsFalsyValue d then errDetailFallback e else d
  | none => errDetailFallback e

/-- Line 92: `typeof detail === "string" ? detail : JSON.stringify(detail)`. -/
def jsValueAsString : JsValue → String
  | JsValue.str s => s
  | JsValue.obj j => j

/-- Embedding of the `POST /ask` handler (lines 64-94).  `message` is the
optional `message` field of the request body; `upstream` is the chat
completion service. -/
def handleAsk (cfg : Config) (message : Option String)
    (upstream : ChatRequest → UpstreamResult) : AskResult :=
  let userText := jsTrim (message.getD "")
  if userText = "" then
    { response := { status := 400, body := ResponseBody.errorBody "Empty message" },
      upstreamCalls := [], errorLog := [] }
  else
    let req := buildChatRequest cfg userText
    match upstream req with
    | UpstreamResult.success resp =>
      match extractAnswer resp with
      | some a =>
        if a = "" then
          { response := { status := 502, body := ResponseBody.errorBody "No answer from model" },
            upstreamCalls := [req], errorLog := [] }
        else
          { response := { status := 200, body := ResponseBody.answerBody a },
            upstreamCalls := [req], errorLog := [] }
      | none =>
        { response := { status := 502, body := ResponseBody.errorBody "No answer from model" },
          upstreamCalls := [req], errorLog := [] }
    | UpstreamResult.failure e =>
      let detail := errDetail e
      { response := { status := 500, body := ResponseBody.errorBody (jsValueAsString detail) },
        upstreamCalls := [req], errorLog := [detail] }

/-- Substring containment (for "the content contains the literal
substring") reusing `matchesAt`. -/
def hasSubstring (s sub : String) : Bool :=
  (List.range (s.data.length + 1)).any (fun i => matchesAt s.data sub.data i)

/-- The ASCII characters the spec calls plain: letters, digits, and the
ASCII whitespace characters. -/
def asciiPlain (c : Char) : Bool :=
  (('a' ≤ c) && (c ≤ 'z')) || (('A' ≤ c) && (c ≤ 'Z')) ||
  (('0' ≤ c) && (c ≤ '9')) || c = ' ' || c = '\t' || c = '\n' || c = '\r'

/-- Every keyword of the four detection rules. -/
def allKeywords : List (List Char) := ptWords ++ esWords ++ itWords ++ frWords

/-- The accented characters appearing inside the Spanish keywords. -/
def esAccents : List Char := ['á','é','í','ó']

/-!  Helper lemmas about trimming, keyword matching and lower-casing. -/

theorem mem_dropWhile_of_false {p : Char → Bool} {c : Char}
    (hc : p c = false) : ∀ {l : List Char}, c ∈ l → c ∈ l.dropWhile p := by
  intro l h
  induction l with
  | nil => cases h
  | cons a l ih =>
    rw [List.dropWhile_cons]
    by_cases ha : p a = true
    · rcases List.mem_cons.mp h with rfl | h2
      · rw [hc] at ha; cases ha
      · simpa [ha] using ih h2
    · have ha2 : p a = false := by
        cases hpa : p a
        · rfl
        · exact absurd hpa ha
      simpa [ha2] using h

theorem mem_trimChars {c : Char} {l : List Char}
    (h : c ∈ l) (hc : isJsSpace c = false) : c ∈ trimChars l := by
  unfold trimChars
  rw [List.mem_reverse]
  exact mem_dropWhile_of_false hc
    (List.mem_reverse.mpr (mem_dropWhile_of_false hc h))

theorem trimChars_subset {c : Char} {l : List Char}
    (h : c ∈ trimChars l) : c ∈ l := by
  unfold trimChars at h
  rw [List.mem_reverse] at h
  have h2 := (List.dropWhile_sublist isJsSpace).subset h
  rw [List.mem_reverse] at h2
  exact (List.dropWhile_sublist isJsSpace).subset h2

theorem hasAnyChar_true_of {cls l : List Char} {c : Char}
    (hmem : c ∈ l) (hcls : c ∈ cls) : hasAnyChar cls l = true := by
  unfold hasAnyChar
  exact List.any_eq_true.mpr ⟨c, hmem, by simpa using hcls⟩

theorem hasAnyChar_exists {cls l : List Char}
    (h : hasAnyChar cls l = true) : ∃ c, c ∈ l ∧ c ∈ cls := by
  unfold hasAnyChar at h
  rcases List.any_eq_true.mp h with ⟨c, hmem, hc⟩
  exact ⟨c, hmem, by simpa using hc⟩

theorem wordMatch_mem {l w : List Char} {a : Char}
    (h : wordMatch l w = true) (ha : a ∈ w) : a ∈ l := by
  unfold wordMatch at h
  rcases List.any_eq_true.mp h with ⟨i, _, hi⟩
  simp only [wordMatchAt, matchesAt, Bool.and_eq_true, decide_eq_true_eq] at hi
  have heq : (l.drop i).take w.length = w := hi.1.1
  have hmem : a ∈ (l.drop i).take w.length := by rw [heq]; exact ha
  exact List.drop_subset i l (List.take_subset _ _ hmem)

theorem jsToLower_cases (c : Char) :
    jsToLower c = c ∨ (c, jsToLower c) ∈ lowerTable := by
  unfold jsToLower
  cases hfind : lowerTable.find? (fun p => p.1 == c) with
  | none => exact Or.inl rfl
  | some p =>
    right
    have hp := List.find?_some hfind
    have hm := List.mem_of_find?_eq_some hfind
    have h1 : p.1 = c := by simpa using hp
    have h2 : p = (c, p.2) := by
      cases p; simp_all
    rwa [h2] at hm

theorem bool_eq_false_of_not {b : Bool} (h : ¬ b = true) : b = false := by
  cases b
  · rfl
  · exact absurd rfl h

theorem or_false_parts {x y : Bool} (h : (x || y) = false) :
    x = false ∧ y = false := by
  cases x <;> cases y <;> simp_all

/-- If a Spanish keyword matches the lower-cased text, the accented
character it contains puts the raw trimmed text in the Portuguese
character class (rule 1 has already fired). -/
theorem esWord_accent_portuguese {text : String} {w : List Char}
    (hw : w ∈ esWords) (hm : wordMatch (lowOf text) w = true) :
    hasAnyChar ptClass (trimOf text) = true := by
  have haccAll : esWords.all (fun v => v.any (fun a => decide (a ∈ esAccents))) = true := by
    decide
  have hacc := List.all_eq_true.mp haccAll w hw
  rcases List.any_eq_true.mp hacc with ⟨a, haw, ha⟩
  have ha2 : a ∈ esAccents := of_decide_eq_true ha
  have hal : a ∈ lowOf text := wordMatch_mem hm haw
  rcases List.mem_map.mp hal with ⟨c, hc, hlow⟩
  rcases jsToLower_cases c with hid | htab
  · have hca : c = a := by rw [← hlow, hid]
    have hsub : esAccents.all (fun x => decide (x ∈ ptClass)) = true := by decide
    have hpt : c ∈ ptClass := by
      rw [hca]
      exact of_decide_eq_true (List.all_eq_true.mp hsub a ha2)
    exact hasAnyChar_true_of hc hpt
  · rw [hlow] at htab
    have htabAll : lowerTable.all
        (fun p => !decide (p.2 ∈ esAccents) || decide (p.1 ∈ ptClass)) = true := by
      decide
    have h3 := List.all_eq_true.mp htabAll (c, a) htab
    rw [decide_eq_true ha2] at h3
    have hpt : c ∈ ptClass := of_decide_eq_true (by simpa using h3)
    exact hasAnyChar_true_of hc hpt

/-- C9 (amended): the detector answers Spanish only when the text
contains one of the characters ñ, Ñ, ¡, ¿: the Spanish keyword
alternatives can never decide the result, because each contains an
accented character that already triggers the Portuguese rule. -/
theorem detect_spanish_needs_mark (text : String)
    (h : detectLangFromText text = "Spanish") :
    'ñ' ∈ text.data ∨ 'Ñ' ∈ text.data ∨ '¡' ∈ text.data ∨ '¿' ∈ text.data := by
  simp only [detectLangFromText] at h
  split_ifs at h with h1 h2 h3 h4
  · exact absurd h (by decide)
  · rcases or_false_parts (bool_eq_false_of_not h1) with ⟨hptc, _⟩
    rcases Bool.or_eq_true_iff.mp h2 with hcls | hkw
    · rcases hasAnyChar_exists hcls with ⟨c, hmem, hces⟩
      have hcnotpt : c ∉ ptClass := fun hcpt => by
        rw [hasAnyChar_true_of hmem hcpt] at hptc
        cases hptc
      have hall : esClass.all (fun x => decide (x ∈ ptClass) ||
          decide (x ∈ (['ñ','Ñ','¡','¿'] : List Char))) = true := by decide
      have hmark : c ∈ (['ñ','Ñ','¡','¿'] : List Char) := by
        rcases Bool.or_eq_true_iff.mp (List.all_eq_true.mp hall c hces) with hp | hp
        · exact absurd (of_decide_eq_true hp) hcnotpt
        · exact of_decide_eq_true hp
      have hct : c ∈ text.data := trimChars_subset hmem
      fin_cases hmark
      · exact Or.inl hct
      · exact Or.inr (Or.inl hct)
      · exact Or.inr (Or.inr (Or.inl hct))
      · exact Or.inr (Or.inr (Or.inr hct))
    · rcases List.any_eq_true.mp hkw with ⟨w, hwmem, hwm⟩
      rw [esWord_accent_portuguese hwmem hwm] at hptc
      cases hptc
  · exact absurd h (by decide)
  · exact absurd h (by decide)
  · exact absurd h (by decide)

/-- C3: any text containing a cedilla, in either case, is detected as
Portuguese regardless of its other content, because rule 1 fires first. -/
theorem detect_cedilla_portuguese (text : String)
    (h : 'ç' ∈ text.data ∨ 'Ç' ∈ text.data) :
    detectLangFromText text = "Portuguese" := by
  have key : hasAnyChar ptClass (trimOf text) = true := by
    rcases h with h | h
    · exact hasAnyChar_true_of (mem_trimChars h (by decide)) (by decide)
    · exact hasAnyChar_true_of (mem_trimChars h (by decide)) (by decide)
  simp only [detectLangFromText, key, Bool.true_or, if_true]

/-- Witness for `detect_cedilla_portuguese`: a text holding a cedilla and
the French-only keyword pourquoi is still detected as Portuguese. -/
theorem detect_cedilla_portuguese_witness :
    ('ç' ∈ String.data "français pourquoi" ∨ 'Ç' ∈ String.data "français pourquoi") ∧
    detectLangFromText "français pourquoi" = "Portuguese" :=
  ⟨Or.inl (by decide), detect_cedilla_portuguese "français pourquoi" (Or.inl (by decide))⟩

/-- C8: a text of plain ASCII letters, digits and whitespace with no
whole-word occurrence of any rule keyword is detected as English. -/
theorem detect_ascii_plain_english (text : String)
    (hascii : text.data.all asciiPlain = true)
    (hkw : allKeywords.all (fun w => !wordMatch (lowOf text) w) = true) :
    detectLangFromText text = "English" := by
  have hplain : ∀ c ∈ text.data, asciiPlain c = true := fun c hc =>
    List.all_eq_true.mp hascii c hc
  have hclass : ∀ cls : List Char, cls.all (fun c => !asciiPlain c) = true →
      hasAnyChar cls (trimOf text) = false := by
    intro cls hcls
    cases hac : hasAnyChar cls (trimOf text)
    · rfl
    · exfalso
      rcases hasAnyChar_exists hac with ⟨c, hmem, hin⟩
      have h1 : asciiPlain c = true := hplain c (trimChars_subset hmem)
      have h2 := List.all_eq_true.mp hcls c hin
      rw [h1] at h2
      cases h2
  have hwords : ∀ ws : List (List Char), (∀ w ∈ ws, w ∈ allKeywords) →
      anyWord (lowOf text) ws = false := by
    intro ws hsub
    cases haw : anyWord (lowOf text) ws
    · rfl
    · exfalso
      rcases List.any_eq_true.mp haw with ⟨w, hw, hmatch⟩
      have h3 := List.all_eq_true.mp hkw w (hsub w hw)
      rw [hmatch] at h3
      cases h3
  have hpt := hwords ptWords (fun w hw => by simp [allKeywords, hw])
  have hes := hwords esWords (fun w hw => by simp [allKeywords, hw])
  have hit := hwords itWords (fun w hw => by simp [allKeywords, hw])
  have hfr := hwords frWords (fun w hw => by simp [allKeywords, hw])
  simp only [detectLangFromText,
    hclass ptClass (by decide), hclass esClass (by decide),
    hclass itClass (by decide), hclass frClass (by decide),
    hpt, hes, hit, hfr, Bool.or_self, if_false, Bool.false_eq_true]

/-- Witness for `detect_ascii_plain_english` at a concrete plain text. -/
theorem detect_ascii_plain_english_witness :
    (String.data "hello world 123").all asciiPlain = true ∧
    allKeywords.all (fun w => !wordMatch (lowOf "hello world 123") w) = true ∧
    detectLangFromText "hello world 123" = "English" :=
  ⟨by decide, by decide,
   detect_ascii_plain_english "hello world 123" (by decide) (by decide)⟩

/-- C1 counterexample: the four accented sample sentences do not all get
the labels the specification states; the Spanish sample is labelled
Portuguese (its é and í are in rule 1 character class). -/
theorem detect_samples_counterexample :
    ¬ (detectLangFromText "Por que os artigos são importantes?" = "Portuguese" ∧
       detectLangFromText "¿Por qué uso artículos?" = "Spanish" ∧
       detectLangFromText "Perché uso gli articoli?" = "Italian" ∧
       detectLangFromText "Pourquoi utiliser des articles?" = "French") := by
  intro h
  exact absurd h.2.1 (by decide)

/-- C1 (amended): the actual labels of the four accented samples: the
Portuguese and French samples get their stated labels, while the Spanish
and Italian samples are both labelled Portuguese because their accented
characters é and í fall in the earlier Portuguese character class. -/
theorem detect_samples_actual :
    detectLangFromText "Por que os artigos são importantes?" = "Portuguese" ∧
    detectLangFromText "¿Por qué uso artículos?" = "Portuguese" ∧
    detectLangFromText "Perché uso gli articoli?" = "Portuguese" ∧
    detectLangFromText "Pourquoi utiliser des articles?" = "French" := by
  refine ⟨?_, ?_, ?_, ?_⟩ <;> decide

/-- C2 counterexample: the English sample question is not labelled
English. -/
theorem detect_english_sample_counterexample :
    ¬ detectLangFromText "Why do we use articles?" = "English" := by
  decide

/-- C2 (amended): the English sample question is labelled French, since
the word articles is a whole-word keyword of the French rule. -/
theorem detect_english_sample_actual :
    detectLangFromText "Why do we use articles?" = "French" := by
  decide

/-- C9 counterexample: a text containing only the upper-case Ñ is
labelled Spanish although it contains none of the literal characters
ñ, ¡, ¿. -/
theorem detect_spanish_mark_counterexample :
    detectLangFromText "AÑO" = "Spanish" ∧
    ¬ ('ñ' ∈ String.data "AÑO" ∨ '¡' ∈ String.data "AÑO" ∨
       '¿' ∈ String.data "AÑO") := by
  constructor
  · decide
  · decide

/-- Witness for `detect_spanish_needs_mark` at a concrete Spanish text. -/
theorem detect_spanish_needs_mark_witness :
    detectLangFromText "mañana" = "Spanish" ∧
    ('ñ' ∈ String.data "mañana" ∨ 'Ñ' ∈ String.data "mañana" ∨
     '¡' ∈ String.data "mañana" ∨ '¿' ∈ String.data "mañana") :=
  ⟨by decide, detect_spanish_needs_mark "mañana" (by decide)⟩

/-!  Supporting lemmas about the handler paths. -/

theorem handleAsk_calls (cfg : Config) (m : String)
    (upstream : ChatRequest → UpstreamResult) (hne : jsTrim m ≠ "") :
    (handleAsk cfg (some m) upstream).upstreamCalls =
      [buildChatRequest cfg (jsTrim m)] := by
  simp only [handleAsk, Option.getD_some]
  rw [if_neg hne]
  cases hu : upstream (buildChatRequest cfg (jsTrim m)) with
  | success resp =>
    cases hea : extractAnswer resp with
    | some a =>
      by_cases ha : a = "" <;> simp [hea, ha]
    | none => simp [hea]
  | failure e => simp

theorem handleAsk_failure (cfg : Config) (m : String)
    (upstream : ChatRequest → UpstreamResult) (e : JsError)
    (hne : jsTrim m ≠ "")
    (hu : upstream (buildChatRequest cfg (jsTrim m)) = UpstreamResult.failure e) :
    handleAsk cfg (some m) upstream =
      { response := { status := 500,
                      body := ResponseBody.errorBody (jsValueAsString (errDetail e)) },
        upstreamCalls := [buildChatRequest cfg (jsTrim m)],
        errorLog := [errDetail e] } := by
  simp only [handleAsk, Option.getD_some]
  rw [if_neg hne, hu]

theorem handleAsk_success_empty (cfg : Config) (m : String)
    (upstream : ChatRequest → UpstreamResult) (resp : ChatResponse)
    (hne : jsTrim m ≠ "")
    (hu : upstream (buildChatRequest cfg (jsTrim m)) = UpstreamResult.success resp)
    (he : extractAnswer resp = none ∨ extractAnswer resp = some "") :
    handleAsk cfg (some m) upstream =
      { response := { status := 502,
                      body := ResponseBody.errorBody "No answer from model" },
        upstreamCalls := [buildChatRequest cfg (jsTrim m)],
        errorLog := [] } := by
  simp only [handleAsk, Option.getD_some]
  rw [if_neg hne, hu]
  rcases he with he | he <;> simp [he]

/-!  Concrete instances used by the witnesses. -/

def cfgEx : Config := { topic := "articles (a / an / the)", model := "gpt-4o-mini" }

def errEx : JsError :=
  { responseData := none, message := some "rate limited",
    stringRepr := "Error: rate limited" }

def upstreamFailEx : ChatRequest → UpstreamResult :=
  fun _ => UpstreamResult.failure errEx

def upstreamSuccEx : ChatRequest → UpstreamResult :=
  fun _ => UpstreamResult.success
    { choices := some [ { message := some { content := some "ok" } } ] }

def respEmptyEx : ChatResponse :=
  { choices := some [ { message := some { content := some "   " } } ] }

def upstreamEmptyEx : ChatRequest → UpstreamResult :=
  fun _ => UpstreamResult.success respEmptyEx

def respNoChoicesEx : ChatResponse := { choices := none }

def upstreamNoChoicesEx : ChatRequest → UpstreamResult :=
  fun _ => UpstreamResult.success respNoChoicesEx

/-- C4: a missing message, or one that trims to the empty string, is
rejected with 400 Empty message and the upstream service is never
invoked. -/
theorem ask_empty_message_rejected (cfg : Config)
    (upstream : ChatRequest → UpstreamResult) (message : Option String)
    (h : message = none ∨ ∃ m, message = some m ∧ jsTrim m = "") :
    handleAsk cfg message upstream =
      { response := { status := 400, body := ResponseBody.errorBody "Empty message" },
        upstreamCalls := [], errorLog := [] } := by
  rcases h with rfl | ⟨m, rfl, ht⟩
  · simp only [handleAsk, Option.getD_none]
    rw [if_pos (by decide)]
  · simp only [handleAsk, Option.getD_some]
    rw [if_pos ht]

/-- Witness for `ask_empty_message_rejected`: the whitespace message is
rejected even though the modelled upstream would answer. -/
theorem ask_empty_message_rejected_witness :
    ((some "   " : Option String) = none ∨
      ∃ m, (some "   " : Option String) = some m ∧ jsTrim m = "") ∧
    handleAsk cfgEx (some "   ") upstreamSuccEx =
      { response := { status := 400, body := ResponseBody.errorBody "Empty message" },
        upstreamCalls := [], errorLog := [] } :=
  ⟨Or.inr ⟨"   ", rfl, by decide⟩,
   ask_empty_message_rejected cfgEx upstreamSuccEx (some "   ")
     (Or.inr ⟨"   ", rfl, by decide⟩)⟩

set_option maxRecDepth 100000 in
/-- C5: asking Hello issues exactly one upstream call; its message list
has length 3, the first entry contains the substring English (the
detector output for Hello) and the last entry is the trimmed input. -/
theorem ask_hello_single_call (cfg : Config)
    (upstream : ChatRequest → UpstreamResult) :
    (handleAsk cfg (some "Hello") upstream).upstreamCalls =
      [buildChatRequest cfg "Hello"] ∧
    detectLangFromText "Hello" = "English" ∧
    (buildChatRequest cfg "Hello").messages.length = 3 ∧
    (∃ m1 m2 m3 : ChatMessage,
      (buildChatRequest cfg "Hello").messages = [m1, m2, m3] ∧
      hasSubstring m1.content "English" = true ∧
      m3.content = jsTrim "Hello") := by
  refine ⟨?_, by decide, rfl, ?_⟩
  · have h := handleAsk_calls cfg "Hello" upstream (by decide)
    rwa [show jsTrim "Hello" = "Hello" from by decide] at h
  · refine ⟨{ role := "system", content := langHint (detectLangFromText "Hello") },
      { role := "system", content := SYSTEM_PROMPT cfg.topic },
      { role := "user", content := "Hello" }, rfl, ?_, by decide⟩
    rw [show detectLangFromText "Hello" = "English" from by decide]
    decide

/-- C6: when the upstream call succeeds but the first choice content is
missing or trims to the empty string, the handler answers 502 No answer
from model. -/
theorem ask_upstream_empty_content (cfg : Config) (m : String)
    (upstream : ChatRequest → UpstreamResult) (resp : ChatResponse)
    (hne : jsTrim m ≠ "")
    (hu : upstream (buildChatRequest cfg (jsTrim m)) = UpstreamResult.success resp)
    (hc : contentOf resp = none ∨ ∃ s, contentOf resp = some s ∧ jsTrim s = "") :
    (handleAsk cfg (some m) upstream).response =
      { status := 502, body := ResponseBody.errorBody "No answer from model" } := by
  have he : extractAnswer resp = none ∨ extractAnswer resp = some "" := by
    rcases hc with hc | ⟨s, hs, hts⟩
    · exact Or.inl (by simp [extractAnswer, hc])
    · exact Or.inr (by simp [extractAnswer, hs, hts])
  rw [handleAsk_success_empty cfg m upstream resp hne hu he]

/-- Witness for `ask_upstream_empty_content`: an upstream answer of pure
whitespace yields the 502 error. -/
theorem ask_upstream_empty_content_witness :
    jsTrim "Hi" ≠ "" ∧
    (handleAsk cfgEx (some "Hi") upstreamEmptyEx).response =
      { status := 502, body := ResponseBody.errorBody "No answer from model" } :=
  ⟨by decide,
   ask_upstream_empty_content cfgEx "Hi" upstreamEmptyEx respEmptyEx
     (by decide) rfl (Or.inr ⟨"   ", rfl, by decide⟩)⟩

/-- C7: on upstream failure the handler answers 500 with the stringified
detail and logs it, the detail being the error payload when present and
truthy, else the nonempty exception message, else the stringified
exception. -/
theorem ask_upstream_failure_500 (cfg : Config) (m : String)
    (upstream : ChatRequest → UpstreamResult) (e : JsError)
    (hne : jsTrim m ≠ "")
    (hu : upstream (buildChatRequest cfg (jsTrim m)) = UpstreamResult.failure e) :
    handleAsk cfg (some m) upstream =
      { response := { status := 500,
                      body := ResponseBody.errorBody (jsValueAsString (errDetail e)) },
        upstreamCalls := [buildChatRequest cfg (jsTrim m)],
        errorLog := [errDetail e] } ∧
    (∀ s, e.responseData = some (JsValue.str s) → s ≠ "" →
      errDetail e = JsValue.str s) ∧
    (∀ j, e.responseData = some (JsValue.obj j) → errDetail e = JsValue.obj j) ∧
    (∀ s, (e.responseData = none ∨ e.responseData = some (JsValue.str "")) →
      e.message = some s → s ≠ "" → errDetail e = JsValue.str s) ∧
    ((e.responseData = none ∨ e.responseData = some (JsValue.str "")) →
      (e.message = none ∨ e.message = some "") →
      errDetail e = JsValue.str e.stringRepr) := by
  refine ⟨handleAsk_failure cfg m upstream e hne hu, ?_, ?_, ?_, ?_⟩
  · intro s hd hs
    simp [errDetail, hd, jsFalsyValue, hs]
  · intro j hd
    simp [errDetail, hd, jsFalsyValue]
  · intro s hd hm hs
    rcases hd with hd | hd <;>
      simp [errDetail, hd, jsFalsyValue, errDetailFallback, hm, hs]
  · intro hd hm
    rcases hd with hd | hd <;> rcases hm with hm | hm <;>
      simp [errDetail, hd, jsFalsyValue, errDetailFallback, hm]

/-- Witness for `ask_upstream_failure_500`: a failure with no payload and
a nonempty exception message is surfaced as a 500 carrying that message,
which is also logged. -/
theorem ask_upstream_failure_500_witness :
    jsTrim "Hi" ≠ "" ∧
    handleAsk cfgEx (some "Hi") upstreamFailEx =
      { response := { status := 500,
                      body := ResponseBody.errorBody "rate limited" },
        upstreamCalls := [buildChatRequest cfgEx (jsTrim "Hi")],
        errorLog := [JsValue.str "rate limited"] } := by
  constructor
  · decide
  · have h := ask_upstream_failure_500 cfgEx "Hi" upstreamFailEx errEx (by decide) rfl
    rw [h.1]
    rfl

/-- C10: an upstream success whose response has no choices array, an
empty choices array, or a first choice without a message is answered with
the same 502 as a missing content field, never a 500. -/
theorem ask_missing_choices_502 (cfg : Config) (m : String)
    (upstream : ChatRequest → UpstreamResult) (resp : ChatResponse)
    (hne : jsTrim m ≠ "")
    (hu : upstream (buildChatRequest cfg (jsTrim m)) = UpstreamResult.success resp)
    (hshape : resp.choices = none ∨ resp.choices = some [] ∨
      ∃ c rest, resp.choices = some (c :: rest) ∧ c.message = none) :
    (handleAsk cfg (some m) upstream).response =
      { status := 502, body := ResponseBody.errorBody "No answer from model" } ∧
    (handleAsk cfg (some m) upstream).response.status ≠ 500 := by
  have hc : contentOf resp = none := by
    rcases hshape with h | h | ⟨c, rest, h, hmsg⟩
    · simp [contentOf, h]
    · simp [contentOf, h]
    · simp [contentOf, h, hmsg]
  have heq := handleAsk_success_empty cfg m upstream resp hne hu
    (Or.inl (by simp [extractAnswer, hc]))
  rw [heq]
  exact ⟨rfl, show (502 : Nat) ≠ 500 by decide⟩

/-- Witness for `ask_missing_choices_502`: an upstream success carrying
no choices array at all is answered with the 502 error. -/
theorem ask_missing_choices_502_witness :
    jsTrim "Hola" ≠ "" ∧
    ((handleAsk cfgEx (some "Hola") upstreamNoChoicesEx).response =
      { status := 502, body := ResponseBody.errorBody "No answer from model" } ∧
     (handleAsk cfgEx (some "Hola") upstreamNoChoicesEx).response.status ≠ 500) :=
  ⟨by decide,
   ask_missing_choices_502 cfgEx "Hola" upstreamNoChoicesEx respNoChoicesEx
     (by decide) rfl (Or.inl rfl)⟩
